import Mathlib

/-!
Verification of the misconception-analysis backend (FastAPI service in
backend/app.py with models/analyzer.py and models/text.py).

Modelling conventions:
* Python floats are modelled by exact rationals (ℚ); decimal literals such as
  0.65 denote the exact decimal rational.
* Python round(x, 3) is modelled by rounding half-up to 3 decimals (exact
  values in the claims are never half-way cases, so the tie-breaking rule is
  irrelevant to every statement below).
* The sentence-transformer encoder and the sklearn classifier are opaque
  artifacts: the encoder only ever feeds the similarity scalars, which are
  therefore universally quantified, and the classifier is modelled as an
  abstract function from (cleaned) text to an outcome, either an arg-max
  class with its probability (predict_proba path) or a hard label
  (the except path, which fixes confidence at 0.6).
* Python dicts with optional keys (mis_pred.get(k, default)) are modelled by
  structures with Option fields and Option.getD.
* Python strings are sequences of characters, modelled on the character
  lists underlying Lean strings; str.lower is modelled charwise by
  Char.toLower (every string these claims touch is ASCII or, for the
  keyword "ε", already lowercase).
-/

namespace PD1

/-- round(x, n) of Python, on exact rationals (round half up). -/
def roundTo (n : ℕ) (x : ℚ) : ℚ := ((⌊x * 10 ^ n + 1 / 2⌋ : ℤ) : ℚ) / 10 ^ n

/-- Python str.lower, charwise. -/
def strLower (s : String) : String := ⟨s.data.map Char.toLower⟩

/-- Substring test, Python's `needle in hay`. -/
def strContains (hay needle : String) : Bool :=
  hay.data.tails.any (fun t => needle.data.isPrefixOf t)

/-- Python str.strip: drop leading and trailing whitespace. -/
def py_strip (s : String) : String :=
  ⟨((s.data.dropWhile Char.isWhitespace).reverse.dropWhile Char.isWhitespace).reverse⟩

/-- Splits a character list into maximal whitespace-free words
(the behaviour of re.sub(whitespace-runs, " ", t.strip()) viewed as
word extraction); cur accumulates the current word reversed. -/
def wordsAux : List Char → List Char → List (List Char)
  | [], cur => if cur.isEmpty then [] else [cur.reverse]
  | c :: cs, cur =>
    if c.isWhitespace then
      if cur.isEmpty then wordsAux cs [] else cur.reverse :: wordsAux cs []
    else wordsAux cs (c :: cur)

/-- Python sep.join(l). -/
def joinSep (sep : String) : List String → String
  | [] => ""
  | [s] => s
  | s :: rest => s ++ sep ++ joinSep sep rest

/-- clean_text from models/text.py: strip, then collapse whitespace runs to
a single space. -/
def clean_text (t : String) : String :=
  joinSep " " ((wordsAux t.data []).map (fun w => ⟨w⟩))

/-- Outcome of the opaque classifier on one embedded text: either the
predict_proba path (arg-max class and its probability) or the hard-predict
fallback path of the except branch. -/
inductive ClfOutcome where
  | proba (label : String) (conf : ℚ)
  | hard (label : String)
deriving DecidableEq

/-- The label the classifier produced (classes_[argmax] or str(predict)). -/
def outcome_label : ClfOutcome → String
  | .proba l _ => l
  | .hard l => l

/-- The associated confidence: the arg-max probability, or the fixed 0.6 of
the hard-predict except branch. -/
def outcome_conf : ClfOutcome → ℚ
  | .proba _ c => c
  | .hard _ => 0.6

/-- The keyword set of the risk heuristic in predict_label. -/
def riskKeywords : List String := ["miscon", "error", "wrong", "confuse", "noise"]

/-- The value returned by MisconceptionAnalyzer.predict_label (a dict with
label, confidence, risk and an optional explanation). -/
structure Prediction where
  label : String
  confidence : ℚ
  risk : ℚ
  explanation : Option String
deriving DecidableEq

/-- The out-of-distribution flagging block of predict_label:
`if qid is not None and qid in self.label_ref and label not in
self.label_ref[qid]`, the label is suffixed and the risk floored at 0.5. -/
def apply_ood (label_ref : Int → Option (List String)) :
    Option Int → String → ℚ → String × ℚ
  | none, label, risk => (label, risk)
  | some q, label, risk =>
    match label_ref q with
    | none => (label, risk)
    | some labs =>
      if label ∈ labs then (label, risk)
      else (label ++ " (unseen@qid)", max risk 0.5)

/-- MisconceptionAnalyzer.predict_label from models/analyzer.py.
`clf` is none when no classifier artifact was found; otherwise it is the
opaque classifier, a function from cleaned text to an outcome.
`label_ref` is the per-qid reference label table. -/
def predict_label (clf : Option (String → ClfOutcome))
    (label_ref : Int → Option (List String))
    (user_answer : String) (qid : Option Int) : Prediction :=
  let text := clean_text user_answer
  match clf with
  | none =>
      { label := "unknown", confidence := 0.5, risk := 0.4,
        explanation := some "No classifier artifact found." }
  | some f =>
      let o := f text
      let label := outcome_label o
      let conf := outcome_conf o
      let risk : ℚ :=
        if riskKeywords.any (fun k => strContains (strLower label) k) then
          max 0.4 (1 - conf + 0.4)
        else 0.2
      let lr := apply_ood label_ref qid label risk
      { label := lr.1, confidence := roundTo 3 conf, risk := roundTo 3 lr.2,
        explanation := none }

/-- The misconception-prediction dict as consumed by analyze_freeform in
backend/app.py through mis_pred.get(key, default): every field may be
absent. -/
structure MisPred where
  label : Option String
  confidence : Option ℚ
  risk : Option ℚ
deriving DecidableEq

/-- The dict actually produced by predict_label, as seen by the endpoint. -/
def Prediction.asDict (p : Prediction) : MisPred :=
  { label := some p.label, confidence := some p.confidence, risk := some p.risk }

/-- max(0.0, min(1.0, x)), the normalisation applied in analyze_freeform. -/
def clamp01 (x : ℚ) : ℚ := max 0 (min 1 x)

/-- mis_risk as derived in analyze_freeform (backend/app.py): 1 - confidence
when the label is "noise" or "misc", else the prediction's risk field
(default 0.4), then clamped to [0,1]. -/
def mis_risk (p : MisPred) : ℚ :=
  clamp01 (if p.label = some "noise" ∨ p.label = some "misc" then
             1 - p.confidence.getD 0.5
           else p.risk.getD 0.4)

/-- The blended answer score of analyze_freeform. -/
def answer_score (sim_ui : ℚ) (p : MisPred) : ℚ :=
  roundTo 3 (0.65 * sim_ui + 0.35 * (1 - mis_risk p))

/-- The risk derivation as worded by the spec (§4.4 step 4): "if predicted
label is exactly "noise" or "misc", risk = 1 - confidence; otherwise use the
prediction's own risk field (default 0.4 if absent). Clamp to [0,1]." -/
def mis_risk_spec (p : MisPred) : ℚ :=
  min 1 (max 0 (if p.label = some "noise" ∨ p.label = some "misc" then
                  1 - p.confidence.getD 0.5
                else p.risk.getD 0.4))

/-- The blended score as worded by the spec (§4.4 step 5):
0.65*sim_ui + 0.35*(1 - mis_risk), rounded to 3 decimals. -/
def answer_score_spec (sim_ui : ℚ) (p : MisPred) : ℚ :=
  roundTo 3 (0.65 * sim_ui + 0.35 * (1 - mis_risk_spec p))

/-- The four guidance tips of suggest_guidance, in source order. -/
def openingTip : String :=
  "Start by restating the key term from the question in one line."

def definitionTip : String :=
  "Add a precise definition and one verifying example."

def contrastTip : String :=
  "Address the specific confusion noted in the label; contrast the two concepts explicitly."

def closingTip : String :=
  "Finish with a short check: why your answer satisfies the definition or rule."

/-- The keyword set actually used by suggest_guidance in
models/analyzer.py (note that it contains "ε" as well as "epsilon"). -/
def guidanceKeywords : List String :=
  ["epsilon", "ε", "dfa", "nfa", "regex", "star", "union", "concat", "equiv"]

/-- The keyword set as enumerated by the claim/spec, which omits "ε". -/
def claimedGuidanceKeywords : List String :=
  ["epsilon", "dfa", "nfa", "regex", "star", "union", "concat", "equiv"]

/-- MisconceptionAnalyzer.suggest_guidance. The similarity self.similarity
(user, ideal) is produced by the opaque encoder, so it enters as the
abstract scalar sim_ui. -/
def suggest_guidance (sim_ui : ℚ) (mis_label : String) : String :=
  let tips : List String := [openingTip]
  let tips := if sim_ui < 0.65 then tips ++ [definitionTip] else tips
  let tips :=
    if guidanceKeywords.any (fun k => strContains (strLower mis_label) k) then
      tips ++ [contrastTip]
    else tips
  let tips := tips ++ [closingTip]
  joinSep " " tips

/-- The guidance string as structured by the spec (§4.2): opening tip, then
the definition tip when sim_ui < 0.65, then the contrast tip when the
lowercased label contains one of the keywords kws, then the closing tip,
joined by single spaces. -/
def guidance_spec (kws : List String) (sim_ui : ℚ) (mis_label : String) : String :=
  openingTip
    ++ (if sim_ui < 0.65 then " " ++ definitionTip else "")
    ++ (if kws.any (fun k => strContains (strLower mis_label) k) then
          " " ++ contrastTip
        else "")
    ++ " " ++ closingTip

/-- The pydantic validation of AnalyzeBody in backend/app.py:
question_text and ideal_answer_text need min_length 3,
user_answer_text needs min_length 1. -/
def analyze_body_valid (question_text ideal_answer_text user_answer_text : String) : Prop :=
  3 ≤ question_text.length ∧ 3 ≤ ideal_answer_text.length ∧ 1 ≤ user_answer_text.length

instance (q i u : String) : Decidable (analyze_body_valid q i u) := by
  unfold analyze_body_valid; infer_instance

/-- State of MisconceptionAnalyzer after __init__/_load. -/
structure AnalyzerState where
  clf : Option (String → ClfOutcome)
  label_ref : Int → Option (List String)
  loaded : Bool

/-- The per-qid label table built by _load from the cluster_labels rows:
sorted set of the labels grouped under each qid; qids with no rows are
absent from the table. -/
def label_ref_of (rows : List (Int × String)) : Int → Option (List String) :=
  fun q =>
    let labs := (rows.filter (fun r => r.1 = q)).map (fun r => r.2)
    if labs.isEmpty then none
    else some (List.insertionSort (fun a b : String => a ≤ b) labs.dedup)

/-- MisconceptionAnalyzer._load: the classifier artifact and the label
table are each loaded when present; self.loaded is set to True at the end
of _load in every case. -/
def analyzer_load (clfArtifact : Option (String → ClfOutcome))
    (lblArtifact : Option (List (Int × String))) : AnalyzerState :=
  { clf := clfArtifact
    label_ref := match lblArtifact with
      | none => fun _ => none
      | some rows => label_ref_of rows
    loaded := true }

/-- The JSON returned by GET /health. -/
structure HealthResponse where
  ok : Bool
  artifacts : Bool
  difficulty_items : ℕ
deriving DecidableEq

/-- Modelled from the spec: the DifficultyEstimator implementation
(models/difficulty.py) is not in the source tree; §4.3 says it "exposes
item count at startup for health reporting" and §6/§8 say an empty
artifacts directory loads no item table, giving a count of 0. The item
table is an optional list of per-question difficulty rows. -/
def difficulty_n_items (itemTable : Option (List (Int × ℚ))) : ℕ :=
  match itemTable with
  | none => 0
  | some t => t.length

/-- The health endpoint of backend/app.py. -/
def health (a : AnalyzerState) (itemTable : Option (List (Int × ℚ))) : HealthResponse :=
  { ok := true, artifacts := a.loaded,
    difficulty_items := difficulty_n_items itemTable }

/-! Helper lemmas. -/

lemma roundTo_mono {a b : ℚ} (h : a ≤ b) (n : ℕ) : roundTo n a ≤ roundTo n b := by
  unfold roundTo
  have hp : (0:ℚ) < 10 ^ n := by positivity
  have h2 : ⌊a * 10 ^ n + 1/2⌋ ≤ ⌊b * 10 ^ n + 1/2⌋ := by
    apply Int.floor_mono
    nlinarith
  gcongr

lemma roundTo3_bounded {x lo hi : ℚ} (hl : lo ≤ x) (hh : x ≤ hi)
    (hlo : roundTo 3 lo = lo) (hhi : roundTo 3 hi = hi) :
    lo ≤ roundTo 3 x ∧ roundTo 3 x ≤ hi :=
  ⟨hlo ▸ roundTo_mono hl 3, hhi ▸ roundTo_mono hh 3⟩

lemma apply_ood_none (label_ref : Int → Option (List String)) (l : String) (r : ℚ) :
    apply_ood label_ref none l r = (l, r) := rfl

lemma apply_ood_no_ref {label_ref : Int → Option (List String)} {q : Int}
    (h : label_ref q = none) (l : String) (r : ℚ) :
    apply_ood label_ref (some q) l r = (l, r) := by
  simp only [apply_ood]
  rw [h]

lemma apply_ood_mem {label_ref : Int → Option (List String)} {q : Int} {L : List String}
    (h : label_ref q = some L) {l : String} (hm : l ∈ L) (r : ℚ) :
    apply_ood label_ref (some q) l r = (l, r) := by
  simp only [apply_ood]
  rw [h]
  exact if_pos hm

lemma apply_ood_not_mem {label_ref : Int → Option (List String)} {q : Int} {L : List String}
    (h : label_ref q = some L) {l : String} (hm : l ∉ L) (r : ℚ) :
    apply_ood label_ref (some q) l r = (l ++ " (unseen@qid)", max r 0.5) := by
  simp only [apply_ood]
  rw [h]
  exact if_neg hm

lemma clamp01_eq_min_max (x : ℚ) : clamp01 x = min 1 (max 0 x) := by
  unfold clamp01
  rw [max_min_distrib_left]
  norm_num

lemma mis_risk_eq_spec (p : MisPred) : mis_risk p = mis_risk_spec p := by
  unfold mis_risk mis_risk_spec
  rw [clamp01_eq_min_max]

lemma clamp01_nonneg (x : ℚ) : 0 ≤ clamp01 x := le_max_left 0 _

lemma clamp01_le_one (x : ℚ) : clamp01 x ≤ 1 :=
  max_le (by norm_num) (min_le_left 1 x)

lemma mis_risk_ok_09_02 : mis_risk ⟨some "ok", some 0.9, some 0.2⟩ = 0.2 := by
  unfold mis_risk
  rw [if_neg (by decide)]
  unfold clamp01
  norm_num

/-! The claim theorems. -/

/-- C1: for every analyze request (every similarity value and every
misconception-prediction dict), the blended answer score computed by
analyze_freeform equals 0.65*sim_ui + 0.35*(1 - mis_risk) rounded to
3 decimals, where mis_risk is the derived, clamped misconception risk as
the spec words it. -/
theorem answer_score_matches_spec_formula (sim_ui : ℚ) (p : MisPred) :
    answer_score sim_ui p = answer_score_spec sim_ui p := by
  unfold answer_score answer_score_spec
  rw [mis_risk_eq_spec]

/-- C2 counterexample: a classifier outcome with a misconception-like label
("error") and arg-max probability 0.2 — both within the classifier's
contract — makes predict_label return risk = 1.2, outside [0,1]: the
heuristic max(0.4, 1 - confidence + 0.4) is never clamped. -/
theorem predict_label_risk_can_exceed_one :
    (predict_label (some fun _ => .proba "error" 0.2) (fun _ => none) "x" none).risk = 1.2 ∧
    ¬ (predict_label (some fun _ => .proba "error" 0.2) (fun _ => none) "x" none).risk ≤ 1 := by
  have h : (predict_label (some fun _ => .proba "error" 0.2) (fun _ => none) "x" none).risk
      = roundTo 3 (max 0.4 (1 - 0.2 + 0.4)) := by
    simp only [predict_label, apply_ood_none]
    rw [if_pos (by decide)]
    rfl
  rw [h, roundTo]
  norm_num [max_def]

/-- C2 as amended: for every input text, qid, label table and classifier
whose probabilities lie in [0,1], the returned confidence is in [0,1] and
the returned risk is in [0.2, 1.4] — but not necessarily in [0,1]. -/
theorem predict_label_confidence_risk_bounds (clf : Option (String → ClfOutcome))
    (label_ref : Int → Option (List String)) (text : String) (qid : Option Int)
    (hconf : ∀ g l c, clf = some g → g (clean_text text) = ClfOutcome.proba l c →
      0 ≤ c ∧ c ≤ 1) :
    (0 ≤ (predict_label clf label_ref text qid).confidence ∧
      (predict_label clf label_ref text qid).confidence ≤ 1) ∧
    (0.2 ≤ (predict_label clf label_ref text qid).risk ∧
      (predict_label clf label_ref text qid).risk ≤ 1.4) := by
  have r0 : roundTo 3 (0 : ℚ) = 0 := by rw [roundTo]; norm_num
  have r1 : roundTo 3 (1 : ℚ) = 1 := by rw [roundTo]; norm_num
  have r02 : roundTo 3 (0.2 : ℚ) = 0.2 := by rw [roundTo]; norm_num
  have r14 : roundTo 3 (1.4 : ℚ) = 1.4 := by rw [roundTo]; norm_num
  rcases clf with _ | f
  · exact ⟨⟨by norm_num [predict_label], by norm_num [predict_label]⟩,
      ⟨by norm_num [predict_label], by norm_num [predict_label]⟩⟩
  · have hc : 0 ≤ outcome_conf (f (clean_text text)) ∧
        outcome_conf (f (clean_text text)) ≤ 1 := by
      rcases ho : f (clean_text text) with ⟨l, c⟩ | l
      · exact hconf f l c rfl ho
      · constructor <;> norm_num [outcome_conf]
    have hr0 : (0.2 : ℚ) ≤
        (if riskKeywords.any (fun k => strContains (strLower (outcome_label (f (clean_text text)))) k) then
          max 0.4 (1 - outcome_conf (f (clean_text text)) + 0.4)
        else 0.2) ∧
        (if riskKeywords.any (fun k => strContains (strLower (outcome_label (f (clean_text text)))) k) then
          max 0.4 (1 - outcome_conf (f (clean_text text)) + 0.4)
        else 0.2) ≤ 1.4 := by
      split
      · constructor
        · calc (0.2 : ℚ) ≤ 0.4 := by norm_num
            _ ≤ _ := le_max_left _ _
        · apply max_le (by norm_num)
          nlinarith [hc.1]
      · norm_num
    constructor
    · have hcf : (predict_label (some f) label_ref text qid).confidence
          = roundTo 3 (outcome_conf (f (clean_text text))) := by
        simp only [predict_label]
      rw [hcf]
      exact roundTo3_bounded hc.1 hc.2 r0 r1
    · have hsplit : (predict_label (some f) label_ref text qid).risk
          = roundTo 3 ((apply_ood label_ref qid (outcome_label (f (clean_text text)))
              (if riskKeywords.any (fun k => strContains (strLower (outcome_label (f (clean_text text)))) k) then
                max 0.4 (1 - outcome_conf (f (clean_text text)) + 0.4)
              else 0.2)).2) := by
        simp only [predict_label]
      rw [hsplit]
      set risk0 : ℚ :=
        (if riskKeywords.any (fun k => strContains (strLower (outcome_label (f (clean_text text)))) k) then
          max 0.4 (1 - outcome_conf (f (clean_text text)) + 0.4)
        else 0.2) with hrisk0
      have hcases : (apply_ood label_ref qid (outcome_label (f (clean_text text))) risk0).2 = risk0 ∨
          (apply_ood label_ref qid (outcome_label (f (clean_text text))) risk0).2 = max risk0 0.5 := by
        rcases qid with _ | q
        · left; rfl
        · rcases hq : label_ref q with _ | L
          · left; rw [apply_ood_no_ref hq]
          · by_cases hmem : outcome_label (f (clean_text text)) ∈ L
            · left; rw [apply_ood_mem hq hmem]
            · right; rw [apply_ood_not_mem hq hmem]
      rcases hcases with h | h <;> rw [h]
      · exact roundTo3_bounded hr0.1 hr0.2 r02 r14
      · exact roundTo3_bounded (le_max_of_le_left hr0.1) (max_le hr0.2 (by norm_num)) r02 r14

/-- C2 witness: the bounds theorem applied at the no-classifier instance. -/
theorem predict_label_confidence_risk_bounds_witness :
    (0 ≤ (predict_label none (fun _ => none) "x" none).confidence ∧
      (predict_label none (fun _ => none) "x" none).confidence ≤ 1) ∧
    (0.2 ≤ (predict_label none (fun _ => none) "x" none).risk ∧
      (predict_label none (fun _ => none) "x" none).risk ≤ 1.4) :=
  predict_label_confidence_risk_bounds none (fun _ => none) "x" none
    (fun _ _ _ hg _ => Option.noConfusion hg)

/-- C3 counterexample: with an empty artifacts directory (no classifier, no
label file, no difficulty table) the health endpoint does NOT report
artifacts = false: _load sets self.loaded = True unconditionally, so the
artifacts field is true. The difficulty_items part of the claim does hold. -/
theorem health_empty_artifacts_reports_true :
    (health (analyzer_load none none) none).artifacts ≠ false ∧
    (health (analyzer_load none none) none).difficulty_items = 0 := by
  constructor
  · decide
  · rfl

/-- C3 as amended: when the artifacts directory is empty, GET /health
returns ok: true, artifacts: true (the loaded flag is set at the end of
_load regardless of which artifacts existed) and difficulty_items: 0. -/
theorem health_empty_artifacts :
    health (analyzer_load none none) none =
      { ok := true, artifacts := true, difficulty_items := 0 } := rfl

/-- C4 counterexample: at sim_ui = 0.8 and mis_risk = 0.2 the endpoint's
answer score is round(0.65*0.8 + 0.35*0.8, 3) = 0.8, not 0.92. -/
theorem answer_score_not_092 :
    mis_risk ⟨some "ok", some 0.9, some 0.2⟩ = 0.2 ∧
    answer_score 0.8 ⟨some "ok", some 0.9, some 0.2⟩ = 0.8 ∧
    answer_score 0.8 ⟨some "ok", some 0.9, some 0.2⟩ ≠ 0.92 := by
  have ha : answer_score 0.8 ⟨some "ok", some 0.9, some 0.2⟩ = 0.8 := by
    unfold answer_score
    rw [mis_risk_ok_09_02, roundTo]
    norm_num
  exact ⟨mis_risk_ok_09_02, ha, by rw [ha]; norm_num⟩

/-- C4 as amended: for every prediction whose derived mis_risk is 0.2, the
answer score at sim_ui = 0.8 equals 0.8. -/
theorem answer_score_sim08_risk02 (p : MisPred) (h : mis_risk p = 0.2) :
    answer_score 0.8 p = 0.8 := by
  unfold answer_score
  rw [h, roundTo]
  norm_num

/-- C4 witness: the amended score theorem at a concrete prediction with
mis_risk 0.2. -/
theorem answer_score_sim08_risk02_witness :
    answer_score 0.8 ⟨some "ok", some 0.9, some 0.2⟩ = 0.8 :=
  answer_score_sim08_risk02 ⟨some "ok", some 0.9, some 0.2⟩ mis_risk_ok_09_02

/-- C5: when no classifier artifact is loaded, predict_label returns exactly
label "unknown", confidence 0.5, risk 0.4 with the explanatory note, for
every label table, input text and optional qid. -/
theorem predict_label_fallback (label_ref : Int → Option (List String))
    (text : String) (qid : Option Int) :
    predict_label none label_ref text qid =
      { label := "unknown", confidence := 0.5, risk := 0.4,
        explanation := some "No classifier artifact found." } := rfl

/-- C6: whenever a qid is supplied, a reference label set exists for it and
the classifier's predicted label is not a member of it, the returned label
ends with the unseen-marker suffix " (unseen@qid)" and the returned risk is
at least 0.5. -/
theorem predict_label_ood_flagging (f : String → ClfOutcome)
    (label_ref : Int → Option (List String)) (text : String) (q : Int)
    (L : List String) (href : label_ref q = some L)
    (hood : outcome_label (f (clean_text text)) ∉ L) :
    (∃ t, (predict_label (some f) label_ref text (some q)).label = t ++ " (unseen@qid)") ∧
    0.5 ≤ (predict_label (some f) label_ref text (some q)).risk := by
  simp only [predict_label, apply_ood_not_mem href hood]
  constructor
  · exact ⟨outcome_label (f (clean_text text)), rfl⟩
  · have h1 : roundTo 3 (0.5 : ℚ) = 0.5 := by rw [roundTo]; norm_num
    calc (0.5 : ℚ) = roundTo 3 0.5 := h1.symm
      _ ≤ _ := roundTo_mono (le_max_right _ _) 3

/-- C6 witness: the OOD theorem at qid 0 with label set ["A", "B"] and a
classifier that predicts the unseen label "C". -/
theorem predict_label_ood_flagging_witness :
    (∃ t, (predict_label (some fun _ => ClfOutcome.proba "C" 0.5)
      (fun _ => some ["A", "B"]) "x" (some 0)).label = t ++ " (unseen@qid)") ∧
    0.5 ≤ (predict_label (some fun _ => ClfOutcome.proba "C" 0.5)
      (fun _ => some ["A", "B"]) "x" (some 0)).risk :=
  predict_label_ood_flagging (fun _ => ClfOutcome.proba "C" 0.5)
    (fun _ => some ["A", "B"]) "x" 0 ["A", "B"] rfl (by decide)

/-- C7: in the analyze endpoint, mis_risk is derived as 1 - confidence
exactly when the predicted label is "noise" or "misc", otherwise it is the
prediction's risk field (0.4 if absent), and in all cases it is clamped to
[0,1]. -/
theorem mis_risk_derivation (p : MisPred) :
    (p.label = some "noise" ∨ p.label = some "misc" →
      mis_risk p = clamp01 (1 - p.confidence.getD 0.5)) ∧
    (¬(p.label = some "noise" ∨ p.label = some "misc") →
      mis_risk p = clamp01 (p.risk.getD 0.4)) ∧
    0 ≤ mis_risk p ∧ mis_risk p ≤ 1 := by
  refine ⟨fun h => ?_, fun h => ?_, clamp01_nonneg _, clamp01_le_one _⟩
  · unfold mis_risk
    rw [if_pos h]
  · unfold mis_risk
    rw [if_neg h]

/-- C7 witness: the derivation theorem at a concrete "noise" prediction. -/
theorem mis_risk_derivation_witness :
    mis_risk ⟨some "noise", some 0.25, some 0⟩ = clamp01 (1 - (0.25 : ℚ)) :=
  (mis_risk_derivation ⟨some "noise", some 0.25, some 0⟩).1 (Or.inl rfl)

set_option maxRecDepth 8192 in
/-- C8 counterexample: the contrast tip is not emitted "exactly when" the
label contains one of the eight claimed keywords: the label "ε" contains
none of them, yet suggest_guidance emits the contrast tip for it (the
source keyword list also contains "ε"). -/
theorem suggest_guidance_epsilon_counterexample :
    suggest_guidance 0.7 "ε" ≠ guidance_spec claimedGuidanceKeywords 0.7 "ε" ∧
    claimedGuidanceKeywords.all (fun k => !(strContains (strLower "ε") k)) = true := by
  have h1 : ¬((0.7 : ℚ) < 0.65) := by norm_num
  constructor
  · have hL : suggest_guidance 0.7 "ε" = joinSep " " [openingTip, contrastTip, closingTip] := by
      simp only [suggest_guidance]
      rw [if_neg h1, if_pos (by decide)]
      rfl
    have hR : guidance_spec claimedGuidanceKeywords 0.7 "ε"
        = openingTip ++ "" ++ "" ++ " " ++ closingTip := by
      simp only [guidance_spec]
      rw [if_neg h1, if_neg (by decide)]
    rw [hL, hR]
    decide
  · decide

set_option maxRecDepth 8192 in
/-- C8 as amended: for every similarity value and misconception label,
suggest_guidance is the fixed opening tip, then the definition tip exactly
when sim_ui < 0.65, then the contrast tip exactly when the lowercased label
contains one of the keywords "epsilon", "ε", "dfa", "nfa", "regex", "star",
"union", "concat", "equiv", then the fixed closing tip, joined by single
spaces. -/
theorem suggest_guidance_structure (sim_ui : ℚ) (mis_label : String) :
    suggest_guidance sim_ui mis_label = guidance_spec guidanceKeywords sim_ui mis_label := by
  unfold suggest_guidance guidance_spec
  by_cases h1 : sim_ui < 0.65 <;>
    by_cases h2 : (guidanceKeywords.any fun k => strContains (strLower mis_label) k) = true <;>
      simp only [h1, h2, if_true, if_false, Bool.not_eq_true, if_pos, if_neg] <;>
        decide

/-- C9 counterexample: a question_text of three spaces passes the endpoint's
validation (min_length 3 counts characters) but is empty after trimming, so
an accepted body need not have all text fields non-empty after trimming. -/
theorem analyze_body_whitespace_counterexample :
    analyze_body_valid "   " "abc" "x" ∧ py_strip "   " = "" := by
  constructor
  · decide
  · decide

/-- C9 as amended: every body accepted by the validation has all three text
fields non-empty as given (positive length), though possibly whitespace-only
and hence empty after trimming. -/
theorem analyze_body_valid_nonempty (q i u : String)
    (h : analyze_body_valid q i u) : q ≠ "" ∧ i ≠ "" ∧ u ≠ "" := by
  refine ⟨fun he => ?_, fun he => ?_, fun he => ?_⟩
  · rw [he] at h; exact absurd h.1 (by decide)
  · rw [he] at h; exact absurd h.2.1 (by decide)
  · rw [he] at h; exact absurd h.2.2 (by decide)

/-- C9 witness: the non-emptiness theorem at an accepted body. -/
theorem analyze_body_valid_nonempty_witness :
    ("abc" : String) ≠ "" ∧ ("def" : String) ≠ "" ∧ ("x" : String) ≠ "" :=
  analyze_body_valid_nonempty "abc" "def" "x" (by decide)

/-- C10: when no classifier artifact is loaded, the out-of-distribution
annotation is never applied: even with a qid whose reference label set
exists, the fallback returns label exactly "unknown" with no unseen-marker
suffix and risk exactly 0.4. -/
theorem predict_label_fallback_no_ood (label_ref : Int → Option (List String))
    (text : String) (q : Int) (L : List String) (href : label_ref q = some L) :
    (predict_label none label_ref text (some q)).label = "unknown" ∧
    (¬ ∃ t, (predict_label none label_ref text (some q)).label = t ++ " (unseen@qid)") ∧
    (predict_label none label_ref text (some q)).risk = 0.4 := by
  refine ⟨rfl, ?_, rfl⟩
  rintro ⟨t, ht⟩
  have hlen := congrArg String.length ht
  rw [String.length_append] at hlen
  have h7 : ("unknown" : String).length = 7 := rfl
  have h13 : (" (unseen@qid)" : String).length = 13 := rfl
  have hl : (predict_label none label_ref text (some q)).label = "unknown" := rfl
  rw [hl, h7, h13] at hlen
  omega

/-- C10 witness: the fallback theorem at qid 0 with an existing label set. -/
theorem predict_label_fallback_no_ood_witness :
    (predict_label none (fun _ => some ["A", "B"]) "x" (some 0)).label = "unknown" ∧
    (¬ ∃ t, (predict_label none (fun _ => some ["A", "B"]) "x" (some 0)).label
      = t ++ " (unseen@qid)") ∧
    (predict_label none (fun _ => some ["A", "B"]) "x" (some 0)).risk = 0.4 :=
  predict_label_fallback_no_ood (fun _ => some ["A", "B"]) "x" 0 ["A", "B"] rfl

end PD1
